import Mathlib

/-!
# Verification of the camoufox-profile-manager session supervisor

Shallow embedding of `src/backend/session_manager.py` (class `SessionManager`)
and the profile fields it reads.  Python dicts holding sessions are modelled as
association lists keyed by session id; the filesystem is modelled as the list
of directories that currently exist; thread liveness is an `Option Bool`
(`none` = no thread assigned, `some b` = thread assigned, alive iff `b`);
the nondeterministic outcomes (engine importable or not, unit exiting within
the join timeout or not) are explicit `Bool` parameters.
-/

namespace CamoufoxPM

/-- The `proxy` sub-dict of a profile as read by `_run_browser_async`
(`proxy_config.get(...)`); a missing key and a Python-falsy value coincide
(`enabled` missing ↦ `false`, `host` missing ↦ `""`, `port` missing ↦ `0`,
`protocol` missing ↦ `none`, defaulted to `"socks5"` at use site). -/
structure ProxyConfigDict where
  enabled : Bool := false
  host : String := ""
  port : Nat := 0
  protocol : Option String := none
  username : String := ""
  password : String := ""
deriving Repr, DecidableEq

/-- The profile dict fields read by `SessionManager` (`profile.get(...)` /
`profile["name"]`).  Optional numeric keys keep their `Option` so the
call-site defaults (1280 / 800) stay at the call site, as in the source. -/
structure ProfileDict where
  name : String
  fullscreen : Bool := false
  viewport_width : Option Nat := none
  viewport_height : Option Nat := none
  storage_enabled : Bool := false
  persistent_dir : String := ""
  use_geoip : Bool := false
  proxy : ProxyConfigDict := {}
deriving Repr, DecidableEq

/-- `SessionData` (the dataclass in `session_manager.py`).  `stop_flag` is the
`threading.Event`; `temp_profile_dir` is `_temp_profile_dir`; `browser_thread`
models `_browser_thread` together with its `is_alive()` status (`none` =
not assigned, `some b` = assigned with `is_alive() = b`).  The engine handle
`_context` carries no information any claim observes beyond presence. -/
structure SessionData where
  session_id : String
  profile_name : String
  status : String
  started_at : String
  stop_flag : Bool := false
  has_context : Bool := false
  temp_profile_dir : Option String := none
  browser_thread : Option Bool := none
deriving Repr, DecidableEq

/-- `to_public_dict()`: the four public fields. -/
structure PublicDict where
  session_id : String
  profile_name : String
  status : String
  started_at : String
deriving Repr, DecidableEq

/-- `SessionData.to_public_dict`. -/
def SessionData.to_public_dict (sd : SessionData) : PublicDict :=
  { session_id := sd.session_id
    profile_name := sd.profile_name
    status := sd.status
    started_at := sd.started_at }

/-- Errors raised (as `RuntimeError`) by `SessionManager`, named after the
spec taxonomy.  `engineUnavailable` is included so the spec-claimed outcome
`EngineUnavailable` of `start` is statable; the embedded code never
produces it (the `ImportError` is caught inside the unit and only logged). -/
inductive SessionError where
  | sessionConflict (msg : String)
  | sessionNotFound (msg : String)
  | engineUnavailable
deriving Repr, DecidableEq

/-- The whole manager state: `self.active_sessions` (a Python dict, modelled
as an association list in insertion order) together with the set of
directories that exist on the filesystem. -/
structure ManagerState where
  active_sessions : List (String × SessionData) := []
  fs : List String := []
deriving Repr, DecidableEq

/-- Python `d[k]` read (`None`-free: `find?`). -/
def dictLookup (l : List (String × SessionData)) (k : String) : Option SessionData :=
  (l.find? (fun kv => kv.1 == k)).map (fun kv => kv.2)

/-- Python `d[k] = v`: replace in place when the key exists, append otherwise. -/
def dictInsert (l : List (String × SessionData)) (k : String) (v : SessionData) :
    List (String × SessionData) :=
  if l.any (fun kv => kv.1 == k) then
    l.map (fun kv => if kv.1 == k then (k, v) else kv)
  else
    l ++ [(k, v)]

/-- Python `del d[k]`. -/
def dictDelete (l : List (String × SessionData)) (k : String) :
    List (String × SessionData) :=
  l.filter (fun kv => ¬ (kv.1 == k))

/-- In-place mutation of the `SessionData` object registered under `k`
(Python mutates the shared object; here we rewrite the entry). -/
def dictUpdate (l : List (String × SessionData)) (k : String)
    (f : SessionData → SessionData) : List (String × SessionData) :=
  l.map (fun kv => if kv.1 == k then (kv.1, f kv.2) else kv)

/-- `os.makedirs(d, exist_ok=True)`. -/
def fsMakedirs (fs : List String) (d : String) : List String :=
  if d ∈ fs then fs else d :: fs

/-- `shutil.rmtree(d)`: afterwards the path no longer exists. -/
def fsRmtree (fs : List String) (d : String) : List String :=
  fs.filter (fun x => ¬ (x == d))

/-- Python truthiness of an optional integer (`None` and `0` are falsy), as
used on `screen_width` / `screen_height`. -/
def pyTruthyNat : Option Nat → Bool
  | none => false
  | some n => n != 0

/-- Python `profile_name.replace(" ", "-").lower()`, modelled charwise: the
single-character replacement commutes with lowercasing, and `str.lower` is
taken on the ASCII range (`Char.toLower`). -/
def py_sanitize_name (s : String) : String :=
  String.mk (s.data.map (fun c => if c = ' ' then '-' else c.toLower))

/-- `SessionManager._generate_session_id`: sanitised profile name
(spaces replaced by hyphens, lowercased) plus millisecond timestamp. -/
def generate_session_id (profile_name : String) (timestamp : Nat) : String :=
  let safe_name := py_sanitize_name profile_name
  safe_name ++ "-" ++ toString timestamp

/-- `SessionManager._has_active_session`: true iff any registered session has
this profile name. -/
def has_active_session (st : ManagerState) (profile_name : String) : Bool :=
  st.active_sessions.any (fun kv => kv.2.profile_name == profile_name)

/-- `SessionManager._cleanup_temp_profile`: remove the session's temporary
profile directory if one was recorded and it still exists; never touches
anything else, and does not clear the recorded path (the existence check
makes it idempotent). -/
def cleanup_temp_profile (fs : List String) (sd : SessionData) : List String :=
  match sd.temp_profile_dir with
  | none => fs
  | some d => if d ∈ fs then fsRmtree fs d else fs

/-- `SessionManager.start_session` (the supervising thread's own steps,
lines 109-145): admission check, id generation, registration with status
`starting`, thread spawn (the screen dimensions are only forwarded to the
spawned unit, whose effects are modelled separately by `run_browser_setup`),
the 1-second readiness sleep, status flip to `running`, and the public view
of the mutated record.  Python mutates the one `SessionData` object shared
with the dict; here each mutation rewrites the entry under its key.  The
state is returned in both branches so atomicity on the error path is
observable. -/
def start_session (st : ManagerState) (profile : ProfileDict)
    (screen_width screen_height : Option Nat)
    (timestamp : Nat) (started_at : String) :
    Except SessionError PublicDict × ManagerState :=
  if has_active_session st profile.name then
    (Except.error (SessionError.sessionConflict
      ("Session already running for " ++ profile.name)), st)
  else
    let session_id := generate_session_id profile.name timestamp
    let session_data : SessionData :=
      { session_id := session_id
        profile_name := profile.name
        status := "starting"
        started_at := started_at
        stop_flag := false }
    let sessions := dictInsert st.active_sessions session_id session_data
    let session_data := { session_data with browser_thread := some true }
    let sessions := dictUpdate sessions session_id (fun _ => session_data)
    let session_data := { session_data with status := "running" }
    let sessions := dictUpdate sessions session_id (fun _ => session_data)
    (Except.ok session_data.to_public_dict, { st with active_sessions := sessions })

/-- The thread object of `session_id` finishes: `is_alive()` becomes false
(a no-op when the session is no longer registered, since then nothing can
observe the thread any more). -/
def thread_dead (st : ManagerState) (session_id : String) : ManagerState :=
  { st with
    active_sessions := dictUpdate st.active_sessions session_id
      (fun sd => { sd with browser_thread := some false }) }

/-- The unit's `finally` block (lines 379-384) together with the thread's
death: only when the session is still registered, drop the engine handle and
clean the temporary profile directory; the thread stops being alive in any
case. -/
def unit_finish (st : ManagerState) (session_id : String) : ManagerState :=
  let st := thread_dead st session_id
  match dictLookup st.active_sessions session_id with
  | none => st
  | some sd =>
      { active_sessions := dictUpdate st.active_sessions session_id
          (fun s => { s with has_context := false })
        fs := cleanup_temp_profile st.fs sd }

/-- The signalling prefix of `stop_session` (lines 162-166): set the
session's stop signal, then mark it `stopping`. -/
def stop_session_signal (st : ManagerState) (session_id : String) : ManagerState :=
  let st := { st with
    active_sessions := dictUpdate st.active_sessions session_id
      (fun sd => { sd with stop_flag := true }) }
  { st with
    active_sessions := dictUpdate st.active_sessions session_id
      (fun sd => { sd with status := "stopping" }) }

/-- `SessionManager.stop_session` (lines 147-176): `SessionNotFound` for an
unregistered id; otherwise set the stop signal, mark the session `stopping`,
join the unit thread with a 5-second timeout (`unit_exits_in_time` says
whether the unit exited — and hence ran its own `finally` cleanup — within
it), run directory cleanup, and delete the entry unconditionally. -/
def stop_session (st : ManagerState) (session_id : String)
    (unit_exits_in_time : Bool) : Except SessionError Unit × ManagerState :=
  match dictLookup st.active_sessions session_id with
  | none =>
      (Except.error (SessionError.sessionNotFound
        ("No active session with id " ++ session_id)), st)
  | some _ =>
      let st := stop_session_signal st session_id
      let st :=
        match dictLookup st.active_sessions session_id with
        | some sd =>
            if sd.browser_thread == some true && unit_exits_in_time then
              unit_finish st session_id
            else st
        | none => st
      let st :=
        match dictLookup st.active_sessions session_id with
        | some sd => { st with fs := cleanup_temp_profile st.fs sd }
        | none => st
      (Except.ok (), { st with
        active_sessions := dictDelete st.active_sessions session_id })

/-- One iteration of the removal loop in `get_sessions` (lines 195-199):
cleanup then `del`. -/
def reap_session (st : ManagerState) (session_id : String) : ManagerState :=
  match dictLookup st.active_sessions session_id with
  | none => st
  | some sd =>
      { active_sessions := dictDelete st.active_sessions session_id
        fs := cleanup_temp_profile st.fs sd }

/-- `SessionManager.get_sessions` (lines 178-202): collect the sessions whose
thread is assigned and no longer alive, reap each (cleanup + removal), then
return the public views of the remaining sessions. -/
def get_sessions (st : ManagerState) : List PublicDict × ManagerState :=
  let terminated :=
    (st.active_sessions.filter
      (fun kv => kv.2.browser_thread == some false)).map (fun kv => kv.1)
  let st := terminated.foldl reap_session st
  (st.active_sessions.map (fun kv => kv.2.to_public_dict), st)

/-- `ProxyDict` as handed to the engine: the `server` endpoint plus the
optional credentials. -/
structure ProxyDict where
  server : String
  username : Option String := none
  password : Option String := none
deriving Repr, DecidableEq

/-- The `opts` dict built for `AsyncCamoufox` (lines 280-324).  `geoip` is a
`Bool` standing for presence of the `geoip` key. -/
structure CamoufoxOpts where
  headless : Bool
  window : Nat × Nat
  persistent_context : Bool
  user_data_dir : String
  proxy : Option ProxyDict := none
  geoip : Bool := false
deriving Repr, DecidableEq

/-- Viewport resolution (lines 272-278): supplied screen dimensions exactly
when the profile's `fullscreen` is truthy and both dimensions are truthy
(present and nonzero); otherwise the profile's configured viewport with the
1280 × 800 defaults. -/
def resolve_viewport (profile : ProfileDict)
    (screen_width screen_height : Option Nat) : Nat × Nat :=
  if profile.fullscreen && pyTruthyNat screen_width && pyTruthyNat screen_height then
    (screen_width.getD 0, screen_height.getD 0)
  else
    (profile.viewport_width.getD 1280, profile.viewport_height.getD 800)

/-- `tempfile.gettempdir()`, a fixed scratch area. -/
def tempfile_gettempdir : String := "/tmp"

/-- `os.path.abspath`: path normalisation, modelled as the identity (paths in
this model are taken as already normalised). -/
def os_path_abspath (p : String) : String := p

/-- `os.path.join(tempfile.gettempdir(), f"tmp_camoufox_profile_X")`. -/
def temp_profile_dir_name (timestamp_ms : Nat) : String :=
  tempfile_gettempdir ++ "/tmp_camoufox_profile_" ++ toString timestamp_ms

/-- Engine option construction (lines 272-324): returns the `opts` dict, the
temporary directory recorded on the session (`none` in the persistent
branch), and the directory passed to `os.makedirs`. -/
def build_opts (profile : ProfileDict) (screen_width screen_height : Option Nat)
    (timestamp_ms : Nat) : CamoufoxOpts × Option String × String :=
  let wh := resolve_viewport profile screen_width screen_height
  let base : CamoufoxOpts :=
    { headless := false
      window := (wh.1 + 2, wh.2 + 88)
      persistent_context := false
      user_data_dir := "" }
  let dirpart :=
    if profile.storage_enabled && profile.persistent_dir != "" then
      ({ base with
          persistent_context := true
          user_data_dir := os_path_abspath profile.persistent_dir },
        (none : Option String), profile.persistent_dir)
    else
      let temp_dir := temp_profile_dir_name timestamp_ms
      ({ base with
          persistent_context := true
          user_data_dir := os_path_abspath temp_dir },
        some temp_dir, temp_dir)
  let opts := dirpart.1
  let proxy_config := profile.proxy
  let opts :=
    if proxy_config.enabled && proxy_config.host != "" && proxy_config.port != 0 then
      let protocol := proxy_config.protocol.getD "socks5"
      let proxy_dict : ProxyDict :=
        { server := protocol ++ "://" ++ proxy_config.host ++ ":"
            ++ toString proxy_config.port
          username :=
            if proxy_config.username != "" then some proxy_config.username else none
          password :=
            if proxy_config.password != "" then some proxy_config.password else none }
      let opts := { opts with proxy := some proxy_dict }
      if profile.use_geoip then { opts with geoip := true } else opts
    else opts
  (opts, dirpart.2.1, dirpart.2.2)

/-- What reaches the engine: the launch options and the viewport applied to
the initial page via `set_viewport_size` (line 352). -/
structure EngineLaunch where
  opts : CamoufoxOpts
  page_viewport : Nat × Nat
deriving Repr, DecidableEq

/-- The state effects of `_run_browser_async` up to entering the poll loop
(lines 258-354): an engine import failure is only logged and the coroutine
returns (the thread dies); likewise when the session is not registered;
otherwise the working directory is created, the temporary directory (if any)
is recorded on the session, and the engine is launched with the built
options.  On success the thread stays alive in the poll loop. -/
def run_browser_setup (engine_available : Bool) (st : ManagerState)
    (session_id : String) (profile : ProfileDict)
    (screen_width screen_height : Option Nat) (timestamp_ms : Nat) :
    ManagerState × Option EngineLaunch :=
  if !engine_available then
    (thread_dead st session_id, none)
  else
    match dictLookup st.active_sessions session_id with
    | none => (thread_dead st session_id, none)
    | some _ =>
        let b := build_opts profile screen_width screen_height timestamp_ms
        let fs := fsMakedirs st.fs b.2.2
        let sessions :=
          match b.2.1 with
          | some d => dictUpdate st.active_sessions session_id
              (fun sd => { sd with temp_profile_dir := some d })
          | none => st.active_sessions
        let sessions := dictUpdate sessions session_id
          (fun sd => { sd with has_context := true })
        ({ active_sessions := sessions, fs := fs },
          some { opts := b.1
                 page_viewport := resolve_viewport profile screen_width screen_height })

/-- `start_session` together with the spawned unit's setup running during the
1-second readiness sleep — the sequencing an HTTP caller observes. -/
def start_and_run_unit (engine_available : Bool) (st : ManagerState)
    (profile : ProfileDict) (screen_width screen_height : Option Nat)
    (timestamp : Nat) (started_at : String) (unit_timestamp_ms : Nat) :
    Except SessionError PublicDict × ManagerState :=
  match start_session st profile screen_width screen_height timestamp started_at with
  | (Except.error e, st') => (Except.error e, st')
  | (Except.ok view, st') =>
      let su := run_browser_setup engine_available st' view.session_id profile
        screen_width screen_height unit_timestamp_ms
      (Except.ok view, su.1)

/-- The registry record a successful `start_session` leaves behind: the
record constructed at lines 118-124, after the thread spawn and the
`running` status update. -/
def started_session_record (p : ProfileDict) (t : Nat) (sa : String) : SessionData :=
  { session_id := generate_session_id p.name t
    profile_name := p.name
    status := "running"
    started_at := sa
    stop_flag := false
    has_context := false
    temp_profile_dir := none
    browser_thread := some true }

/-! ### Concrete example inputs and states, used to instantiate theorems -/

def exProfileA : ProfileDict := { name := "Alpha One" }

def exProfileB : ProfileDict := { name := "Beta" }

def exProfileFull : ProfileDict :=
  { name := "Full", fullscreen := true
    viewport_width := some 1000, viewport_height := some 900 }

def exProfileProxy : ProfileDict :=
  { name := "Prox", use_geoip := true
    proxy := { enabled := true, host := "10.0.0.1", port := 8080
               username := "u", password := "" } }

def exProfilePersist : ProfileDict :=
  { name := "Keep", storage_enabled := true, persistent_dir := "/data/keep" }

def exProfileUpper : ProfileDict := { name := "A" }

def exProfileLower : ProfileDict := { name := "a" }

def exStart1 : Except SessionError PublicDict × ManagerState :=
  start_session {} exProfileA none none 5 "2024-01-01T00:00:00Z"

def exSt1 : ManagerState := exStart1.2

def exRun1 : Except SessionError PublicDict × ManagerState :=
  start_and_run_unit true {} exProfileA none none 5 "2024-01-01T00:00:00Z" 6

def exStRun1 : ManagerState := exRun1.2

def exRun2 : Except SessionError PublicDict × ManagerState :=
  start_and_run_unit true exStRun1 exProfileB none none 7 "t2" 8

def exStRun2 : ManagerState := exRun2.2

/-- `exStRun2` after the Alpha unit exited on its own (user closed the
browser window). -/
def exStDead : ManagerState := unit_finish exStRun2 "alpha-one-5"

def exC9r1 : Except SessionError PublicDict × ManagerState :=
  start_session {} exProfileUpper none none 7 "t0"

def exC9r2 : Except SessionError PublicDict × ManagerState :=
  start_session exC9r1.2 exProfileLower none none 7 "t1"

def exPersistRun : Except SessionError PublicDict × ManagerState :=
  start_and_run_unit true {} exProfilePersist none none 11 "t3" 12

def exEngineless : Except SessionError PublicDict × ManagerState :=
  start_and_run_unit false {} exProfileB none none 21 "t4" 22

def exFullStart : Except SessionError PublicDict × ManagerState :=
  start_session {} exProfileFull (some 0) (some 0) 31 "t5"

/-! ### Lemmas about the dictionary and filesystem model -/

theorem dictLookup_cons (kv : String × SessionData) (t : List (String × SessionData))
    (k : String) :
    dictLookup (kv :: t) k = if kv.1 = k then some kv.2 else dictLookup t k := by
  by_cases h : kv.1 = k
  · simp [dictLookup, List.find?_cons_of_pos, h]
  · simp [dictLookup, List.find?_cons_of_neg, h]

theorem dictUpdate_cons (kv : String × SessionData) (t : List (String × SessionData))
    (k : String) (f : SessionData → SessionData) :
    dictUpdate (kv :: t) k f
      = (if kv.1 = k then (kv.1, f kv.2) else kv) :: dictUpdate t k f := by
  by_cases h : kv.1 = k <;> simp [dictUpdate, h]

theorem dictDelete_cons (kv : String × SessionData) (t : List (String × SessionData))
    (k : String) :
    dictDelete (kv :: t) k
      = if kv.1 = k then dictDelete t k else kv :: dictDelete t k := by
  by_cases h : kv.1 = k <;> simp [dictDelete, List.filter_cons, h]

theorem dictLookup_update_self (l : List (String × SessionData)) (k : String)
    (f : SessionData → SessionData) :
    dictLookup (dictUpdate l k f) k = (dictLookup l k).map f := by
  induction l with
  | nil => rfl
  | cons kv t ih =>
      rw [dictUpdate_cons, dictLookup_cons, dictLookup_cons]
      by_cases h : kv.1 = k
      · simp [h]
      · simp [h, ih]

theorem dictLookup_update_ne (l : List (String × SessionData)) (k k' : String)
    (f : SessionData → SessionData) (hne : k' ≠ k) :
    dictLookup (dictUpdate l k f) k' = dictLookup l k' := by
  induction l with
  | nil => rfl
  | cons kv t ih =>
      rw [dictUpdate_cons, dictLookup_cons, dictLookup_cons]
      have h4 : ¬ k = k' := fun hh => hne hh.symm
      by_cases h : kv.1 = k
      · have h2 : ¬ kv.1 = k' := by rw [h]; exact fun hh => hne hh.symm
        simp [h, h2, h4, ih]
      · by_cases h3 : kv.1 = k'
        · simp [h, h3, hne]
        · simp [h, h3, ih]

theorem dictLookup_delete_self (l : List (String × SessionData)) (k : String) :
    dictLookup (dictDelete l k) k = none := by
  induction l with
  | nil => rfl
  | cons kv t ih =>
      rw [dictDelete_cons]
      by_cases h : kv.1 = k
      · simp [h, ih]
      · rw [if_neg h, dictLookup_cons, if_neg h]
        exact ih

theorem dictLookup_delete_ne (l : List (String × SessionData)) (k k' : String)
    (hne : k' ≠ k) :
    dictLookup (dictDelete l k) k' = dictLookup l k' := by
  induction l with
  | nil => rfl
  | cons kv t ih =>
      rw [dictDelete_cons, dictLookup_cons]
      have h4 : ¬ k = k' := fun hh => hne hh.symm
      by_cases h : kv.1 = k
      · have h2 : ¬ kv.1 = k' := by rw [h]; exact fun hh => hne hh.symm
        simp [h, h2, h4, ih]
      · rw [if_neg h, dictLookup_cons]
        by_cases h3 : kv.1 = k'
        · simp [h3]
        · simp [h3, ih]

theorem dictLookup_insert_self (l : List (String × SessionData)) (k : String)
    (v : SessionData) :
    dictLookup (dictInsert l k v) k = some v := by
  by_cases hany : l.any (fun kv => kv.1 == k) = true
  · rw [dictInsert, if_pos hany]
    induction l with
    | nil => simp at hany
    | cons kv t ih =>
        rw [List.map_cons, dictLookup_cons]
        by_cases h : kv.1 = k
        · simp [h]
        · rw [List.any_cons] at hany
          have hif : ¬ ((kv.1 == k) = true) := by simp [h]
          rw [if_neg hif, if_neg h]
          have hany' : (t.any fun kv => kv.1 == k) = true := by
            simpa [h] using hany
          exact ih hany'
  · rw [dictInsert, if_neg hany]
    induction l with
    | nil => rw [List.nil_append, dictLookup_cons, if_pos rfl]
    | cons kv t ih =>
        rw [List.any_cons] at hany
        have h : ¬ kv.1 = k := by
          intro hh
          exact hany (by simp [hh])
        have hany' : ¬ (t.any fun kv => kv.1 == k) = true := by
          intro hh
          exact hany (by simp [hh])
        rw [List.cons_append, dictLookup_cons, if_neg h]
        exact ih hany'

theorem dictLookup_mem {l : List (String × SessionData)} {k : String}
    {v : SessionData} (h : dictLookup l k = some v) : (k, v) ∈ l := by
  simp only [dictLookup, Option.map_eq_some'] at h
  obtain ⟨kv, hfind, hv⟩ := h
  have hmem := List.mem_of_find?_eq_some hfind
  have hk : kv.1 = k := by simpa using List.find?_some hfind
  have hkv : kv = (k, v) := by
    cases kv; simp_all
  rwa [hkv] at hmem

theorem dictLookup_eq_none_of_not_mem {l : List (String × SessionData)} {k : String}
    (h : ∀ kv ∈ l, kv.1 ≠ k) : dictLookup l k = none := by
  simp only [dictLookup, Option.map_eq_none']
  rw [List.find?_eq_none]
  intro kv hm
  simpa using h kv hm

theorem mem_dictInsert_key {l : List (String × SessionData)} {k : String}
    {v : SessionData} {kv : String × SessionData}
    (hm : kv ∈ dictInsert l k v) (hk : kv.1 = k) : kv.2 = v := by
  by_cases hany : l.any (fun x => x.1 == k) = true
  · rw [dictInsert, if_pos hany] at hm
    rw [List.mem_map] at hm
    obtain ⟨pre, _, hpre⟩ := hm
    by_cases h : pre.1 = k
    · rw [if_pos (by simp [h])] at hpre
      rw [← hpre]
    · rw [if_neg (by simp [h])] at hpre
      rw [← hpre] at hk
      exact absurd hk h
  · rw [dictInsert, if_neg hany] at hm
    rw [List.mem_append] at hm
    rcases hm with hm | hm
    · exfalso
      apply hany
      rw [List.any_eq_true]
      exact ⟨kv, hm, by simp [hk]⟩
    · simp only [List.mem_singleton] at hm
      rw [hm]

theorem exists_mem_dictInsert (l : List (String × SessionData)) (k : String)
    (v : SessionData) : ∃ kv ∈ dictInsert l k v, kv.1 = k := by
  by_cases hany : l.any (fun x => x.1 == k) = true
  · rw [List.any_eq_true] at hany
    obtain ⟨x, hx, hxk⟩ := hany
    have hxk' : x.1 = k := by simpa using hxk
    refine ⟨(k, v), ?_, rfl⟩
    rw [dictInsert, if_pos]
    · exact List.mem_map.mpr ⟨x, hx, by rw [if_pos (by simp [hxk'])]⟩
    · rw [List.any_eq_true]
      exact ⟨x, hx, hxk⟩
  · refine ⟨(k, v), ?_, rfl⟩
    rw [dictInsert, if_neg hany]
    simp

theorem mem_dictUpdate_key {l : List (String × SessionData)} {k : String}
    {v : SessionData} (f : SessionData → SessionData)
    (hall : ∀ kv ∈ l, kv.1 = k → kv.2 = v) :
    ∀ kv ∈ dictUpdate l k f, kv.1 = k → kv.2 = f v := by
  intro kv hm hk
  rw [dictUpdate, List.mem_map] at hm
  obtain ⟨pre, hpre, heq⟩ := hm
  by_cases h : pre.1 = k
  · have hv := hall pre hpre h
    rw [if_pos (by simp [h])] at heq
    rw [← heq]
    simpa using congrArg f hv
  · rw [if_neg (by simp [h])] at heq
    rw [← heq] at hk
    exact absurd hk h

theorem mem_dictUpdate_key_const {l : List (String × SessionData)} {k : String}
    {w : SessionData} :
    ∀ kv ∈ dictUpdate l k (fun _ => w), kv.1 = k → kv.2 = w := by
  intro kv hm hk
  rw [dictUpdate, List.mem_map] at hm
  obtain ⟨pre, hpre, heq⟩ := hm
  by_cases h : pre.1 = k
  · rw [if_pos (by simp [h])] at heq
    rw [← heq]
  · rw [if_neg (by simp [h])] at heq
    rw [← heq] at hk
    exact absurd hk h

theorem mem_dictUpdate_of_mem {l : List (String × SessionData)} {k : String}
    {kv : String × SessionData} (f : SessionData → SessionData)
    (hm : kv ∈ l) (hk : kv.1 = k) : (kv.1, f kv.2) ∈ dictUpdate l k f := by
  rw [dictUpdate, List.mem_map]
  exact ⟨kv, hm, by rw [if_pos (by simp [hk])]⟩

theorem not_mem_of_dictLookup_eq_none {l : List (String × SessionData)} {k : String}
    (h : dictLookup l k = none) : ∀ kv ∈ l, kv.1 ≠ k := by
  intro kv hm hk
  simp only [dictLookup, Option.map_eq_none'] at h
  rw [List.find?_eq_none] at h
  exact h kv hm (by simp [hk])

theorem cleanup_removes_temp {fs : List String} {sd : SessionData} {d : String}
    (h : sd.temp_profile_dir = some d) : d ∉ cleanup_temp_profile fs sd := by
  simp only [cleanup_temp_profile, h]
  by_cases hd : d ∈ fs
  · simp [hd, fsRmtree, List.mem_filter]
  · simp [hd]

theorem cleanup_subset (fs : List String) (sd : SessionData) :
    cleanup_temp_profile fs sd ⊆ fs := by
  rw [cleanup_temp_profile]
  cases sd.temp_profile_dir with
  | none => exact fun x hx => hx
  | some d =>
      by_cases hd : d ∈ fs
      · simp only [if_pos hd]
        exact (List.filter_sublist _).subset
      · simp only [if_neg hd]
        exact fun x hx => hx

theorem cleanup_none {fs : List String} {sd : SessionData}
    (h : sd.temp_profile_dir = none) : cleanup_temp_profile fs sd = fs := by
  simp [cleanup_temp_profile, h]

theorem mem_cleanup_of_ne {fs : List String} {sd : SessionData} {x : String}
    (hx : x ∈ fs) (hne : sd.temp_profile_dir ≠ some x) :
    x ∈ cleanup_temp_profile fs sd := by
  rw [cleanup_temp_profile]
  cases htemp : sd.temp_profile_dir with
  | none => exact hx
  | some d =>
      have hdx : d ≠ x := fun hh => hne (by rw [htemp, hh])
      by_cases hd : d ∈ fs
      · simp only [if_pos hd]
        simp [fsRmtree, List.mem_filter, hx]
        exact fun hh => hdx hh.symm
      · simp only [if_neg hd]
        exact hx

theorem reap_active (st : ManagerState) (a : String) :
    (reap_session st a).active_sessions = dictDelete st.active_sessions a := by
  rw [reap_session]
  cases h : dictLookup st.active_sessions a with
  | some sd => rfl
  | none =>
      have hall := not_mem_of_dictLookup_eq_none h
      rw [dictDelete]
      refine (List.filter_eq_self.mpr ?_).symm
      intro kv hm
      simpa using hall kv hm

theorem reap_fs_subset (st : ManagerState) (a : String) :
    (reap_session st a).fs ⊆ st.fs := by
  rw [reap_session]
  cases h : dictLookup st.active_sessions a with
  | some sd => exact cleanup_subset st.fs sd
  | none => exact fun x hx => hx

theorem foldl_reap_fs_subset (T : List String) (st : ManagerState) :
    ((T.foldl reap_session st).fs) ⊆ st.fs := by
  induction T generalizing st with
  | nil => exact fun x hx => hx
  | cons a T ih =>
      rw [List.foldl_cons]
      exact fun x hx => reap_fs_subset st a (ih (reap_session st a) hx)

theorem foldl_reap_active (T : List String) (st : ManagerState) :
    (T.foldl reap_session st).active_sessions
      = st.active_sessions.filter (fun kv => decide (kv.1 ∉ T)) := by
  induction T generalizing st with
  | nil => simp
  | cons a T ih =>
      rw [List.foldl_cons, ih, reap_active, dictDelete, List.filter_filter]
      refine List.filter_congr ?_
      intro x _
      by_cases h1 : x.1 = a <;> by_cases h2 : x.1 ∈ T <;> simp [h1, h2]

theorem foldl_reap_lookup_none {T : List String} {st : ManagerState} {sid : String}
    (h : sid ∈ T) :
    dictLookup ((T.foldl reap_session st).active_sessions) sid = none := by
  rw [foldl_reap_active]
  apply dictLookup_eq_none_of_not_mem
  intro kv hm hk
  rw [List.mem_filter] at hm
  rw [hk] at hm
  simpa [h] using hm.2

theorem foldl_reap_cleanup {T : List String} {st : ManagerState} {sid : String}
    {sd : SessionData} {d : String}
    (hT : sid ∈ T) (hl : dictLookup st.active_sessions sid = some sd)
    (hd : sd.temp_profile_dir = some d) :
    d ∉ (T.foldl reap_session st).fs := by
  induction T generalizing st with
  | nil => cases hT
  | cons a T ih =>
      rw [List.foldl_cons]
      by_cases ha : sid = a
      · subst ha
        have hgone : d ∉ (reap_session st sid).fs := by
          simp only [reap_session, hl]
          exact cleanup_removes_temp hd
        intro hmem
        exact hgone (foldl_reap_fs_subset T _ hmem)
      · rcases List.mem_cons.mp hT with h | h
        · exact absurd h ha
        · refine ih h ?_
          rw [reap_active, dictLookup_delete_ne _ _ _ ha]
          exact hl

theorem key_determines_entry {l : List (String × SessionData)}
    (hnd : (l.map (fun kv => kv.1)).Nodup) {kv kv' : String × SessionData}
    (h1 : kv ∈ l) (h2 : kv' ∈ l) (hk : kv.1 = kv'.1) : kv = kv' := by
  induction l with
  | nil => cases h1
  | cons a t ih =>
      rw [List.map_cons, List.nodup_cons] at hnd
      rcases List.mem_cons.mp h1 with h1' | h1' <;> rcases List.mem_cons.mp h2 with h2' | h2'
      · rw [h1', h2']
      · exfalso
        apply hnd.1
        rw [List.mem_map]
        exact ⟨kv', h2', by rw [← hk, h1']⟩
      · exfalso
        apply hnd.1
        rw [List.mem_map]
        exact ⟨kv, h1', by rw [hk, h2']⟩
      · exact ih hnd.2 h1' h2'

theorem dictLookup_insert_ne (l : List (String × SessionData)) (k k' : String)
    (v : SessionData) (hne : k' ≠ k) :
    dictLookup (dictInsert l k v) k' = dictLookup l k' := by
  rw [dictInsert]
  by_cases hany : l.any (fun kv => kv.1 == k) = true
  · rw [if_pos hany]
    clear hany
    induction l with
    | nil => rfl
    | cons kv t ih =>
        rw [List.map_cons, dictLookup_cons, dictLookup_cons]
        by_cases h : kv.1 = k
        · rw [if_pos (show (kv.1 == k) = true by simp [h])]
          rw [if_neg (show ¬ (k, v).1 = k' from fun hh => hne hh.symm)]
          rw [if_neg (show ¬ kv.1 = k' from fun hh => hne (hh ▸ h ▸ rfl))]
          exact ih
        · rw [if_neg (show ¬ (kv.1 == k) = true by simp [h])]
          by_cases h3 : kv.1 = k'
          · rw [if_pos h3, if_pos h3]
          · rw [if_neg h3, if_neg h3]
            exact ih
  · rw [if_neg hany]
    clear hany
    induction l with
    | nil =>
        rw [List.nil_append, dictLookup_cons,
          if_neg (show ¬ (k, v).1 = k' from fun hh => hne hh.symm)]
    | cons kv t ih =>
        rw [List.cons_append, dictLookup_cons, dictLookup_cons]
        by_cases h3 : kv.1 = k'
        · rw [if_pos h3, if_pos h3]
        · rw [if_neg h3, if_neg h3]
          exact ih

theorem mk_active_sessions (l : List (String × SessionData)) (fs : List String) :
    (ManagerState.mk l fs).active_sessions = l := rfl

theorem mk_fs (l : List (String × SessionData)) (fs : List String) :
    (ManagerState.mk l fs).fs = fs := rfl

theorem mem_fsMakedirs_self (fs : List String) (d : String) :
    d ∈ fsMakedirs fs d := by
  rw [fsMakedirs]
  by_cases h : d ∈ fs
  · rwa [if_pos h]
  · rw [if_neg h]
    exact List.mem_cons_self d fs

theorem mem_fsMakedirs_of_mem {fs : List String} {x : String} (d : String)
    (h : x ∈ fs) : x ∈ fsMakedirs fs d := by
  rw [fsMakedirs]
  by_cases hd : d ∈ fs
  · rwa [if_pos hd]
  · rw [if_neg hd]
    exact List.mem_cons_of_mem d h

theorem keys_dictUpdate (l : List (String × SessionData)) (k : String)
    (f : SessionData → SessionData) :
    (dictUpdate l k f).map (fun kv => kv.1) = l.map (fun kv => kv.1) := by
  rw [dictUpdate, List.map_map]
  refine List.map_congr_left ?_
  intro kv _
  by_cases h : kv.1 = k
  · simp [h]
  · simp [h]

theorem keys_dictInsert_nodup {l : List (String × SessionData)} {k : String}
    {v : SessionData} (h : (l.map (fun kv => kv.1)).Nodup) :
    ((dictInsert l k v).map (fun kv => kv.1)).Nodup := by
  rw [dictInsert]
  by_cases hany : l.any (fun kv => kv.1 == k) = true
  · rw [if_pos hany, List.map_map]
    have : ((fun kv => kv.1) ∘ fun kv => if kv.1 == k then (k, v) else kv)
        = fun kv : String × SessionData => kv.1 := by
      funext kv
      by_cases hk : kv.1 = k
      · simp [hk]
      · simp [hk]
    rwa [this]
  · rw [if_neg hany, List.map_append, List.nodup_append]
    refine ⟨h, by simp, ?_⟩
    intro a ha
    simp only [List.map_cons, List.map_nil, List.mem_singleton]
    intro hb
    rw [List.mem_map] at ha
    obtain ⟨kv, hkv, hk⟩ := ha
    apply hany
    rw [List.any_eq_true]
    exact ⟨kv, hkv, by simp [hk, hb]⟩

theorem mem_of_mem_dictUpdate_ne {l : List (String × SessionData)} {k : String}
    {f : SessionData → SessionData} {kv : String × SessionData}
    (hm : kv ∈ dictUpdate l k f) (hk : kv.1 ≠ k) : kv ∈ l := by
  rw [dictUpdate, List.mem_map] at hm
  obtain ⟨pre, hpre, heq⟩ := hm
  by_cases h : pre.1 = k
  · rw [if_pos (by simp [h])] at heq
    rw [← heq] at hk
    exact absurd h hk
  · rw [if_neg (by simp [h])] at heq
    rw [← heq]
    exact hpre

theorem mem_of_mem_dictInsert_ne {l : List (String × SessionData)} {k : String}
    {v : SessionData} {kv : String × SessionData}
    (hm : kv ∈ dictInsert l k v) (hk : kv.1 ≠ k) : kv ∈ l := by
  rw [dictInsert] at hm
  by_cases hany : l.any (fun x => x.1 == k) = true
  · rw [if_pos hany, List.mem_map] at hm
    obtain ⟨pre, hpre, heq⟩ := hm
    by_cases h : pre.1 = k
    · rw [if_pos (by simp [h])] at heq
      rw [← heq] at hk
      simp at hk
    · rw [if_neg (by simp [h])] at heq
      rw [← heq]
      exact hpre
  · rw [if_neg hany, List.mem_append] at hm
    rcases hm with hm | hm
    · exact hm
    · simp only [List.mem_singleton] at hm
      rw [hm] at hk
      simp at hk

theorem start_session_ok_spec {st : ManagerState} {p : ProfileDict}
    {sw sh : Option Nat} {t : Nat} {sa : String} {view : PublicDict}
    {st1 : ManagerState}
    (h : start_session st p sw sh t sa = (Except.ok view, st1)) :
    has_active_session st p.name = false
    ∧ view = (started_session_record p t sa).to_public_dict
    ∧ st1.fs = st.fs
    ∧ dictLookup st1.active_sessions (generate_session_id p.name t)
        = some (started_session_record p t sa)
    ∧ (∀ kv ∈ st1.active_sessions, kv.1 = generate_session_id p.name t →
        kv.2 = started_session_record p t sa)
    ∧ (∀ k, k ≠ generate_session_id p.name t →
        dictLookup st1.active_sessions k = dictLookup st.active_sessions k)
    ∧ ((st.active_sessions.map (fun kv => kv.1)).Nodup →
        (st1.active_sessions.map (fun kv => kv.1)).Nodup)
    ∧ (∀ kv ∈ st1.active_sessions, kv.1 ≠ generate_session_id p.name t →
        kv ∈ st.active_sessions) := by
  by_cases hact : has_active_session st p.name = true
  · rw [start_session, if_pos hact] at h
    simp at h
  · have hact' : has_active_session st p.name = false := by
      simpa using hact
    rw [start_session, if_neg (by simp [hact'])] at h
    simp only [Prod.mk.injEq, Except.ok.injEq] at h
    obtain ⟨hview, hst1⟩ := h
    refine ⟨hact', ?_, ?_, ?_, ?_, ?_, ?_, ?_⟩
    · rw [← hview]; rfl
    · rw [← hst1]
    · rw [← hst1, mk_active_sessions,
        dictLookup_update_self, dictLookup_update_self, dictLookup_insert_self]
      rfl
    · rw [← hst1, mk_active_sessions]
      intro kv hm hk
      exact mem_dictUpdate_key_const kv hm hk
    · intro k hk
      rw [← hst1, mk_active_sessions,
        dictLookup_update_ne _ _ _ _ hk, dictLookup_update_ne _ _ _ _ hk,
        dictLookup_insert_ne _ _ _ _ hk]
    · intro hnd
      rw [← hst1, mk_active_sessions, keys_dictUpdate, keys_dictUpdate]
      exact keys_dictInsert_nodup hnd
    · rw [← hst1, mk_active_sessions]
      intro kv hm hk
      exact mem_of_mem_dictInsert_ne
        (mem_of_mem_dictUpdate_ne (mem_of_mem_dictUpdate_ne hm hk) hk) hk

theorem stop_session_signal_lookup {st : ManagerState} {sid : String}
    {sd : SessionData} (h : dictLookup st.active_sessions sid = some sd) :
    dictLookup (stop_session_signal st sid).active_sessions sid
      = some { sd with stop_flag := true, status := "stopping" } := by
  simp only [stop_session_signal, mk_active_sessions,
    dictLookup_update_self, h, Option.map_some']

theorem stop_session_some_spec {st : ManagerState} {sid : String} {sd : SessionData}
    (h : dictLookup st.active_sessions sid = some sd) (u : Bool) :
    (stop_session st sid u).1 = Except.ok ()
    ∧ dictLookup ((stop_session st sid u).2).active_sessions sid = none
    ∧ (∀ d, sd.temp_profile_dir = some d → d ∉ ((stop_session st sid u).2).fs) := by
  refine ⟨?_, ?_, ?_⟩
  · simp [stop_session, h]
  · simp only [stop_session, h]
    exact dictLookup_delete_self _ _
  · intro d hd
    simp only [stop_session, h, stop_session_signal, mk_active_sessions, mk_fs,
      dictLookup_update_self, Option.map_some']
    by_cases hb : ((sd.browser_thread == some true) && u) = true
    · simp only [hb, if_true, unit_finish, thread_dead, mk_active_sessions, mk_fs,
        dictLookup_update_self, h, Option.map_some']
      exact cleanup_removes_temp hd
    · rw [if_neg hb]
      simp only [mk_active_sessions, mk_fs, dictLookup_update_self, h, Option.map_some']
      exact cleanup_removes_temp hd

theorem stop_session_none_spec {st : ManagerState} {sid : String}
    (h : dictLookup st.active_sessions sid = none) (u : Bool) :
    (stop_session st sid u).1 = Except.error (SessionError.sessionNotFound
      ("No active session with id " ++ sid))
    ∧ (stop_session st sid u).2 = st := by
  constructor <;> simp [stop_session, h]


theorem get_sessions_fst (st : ManagerState) :
    (get_sessions st).1
      = ((((st.active_sessions.filter
            (fun kv => kv.2.browser_thread == some false)).map
            (fun kv => kv.1)).foldl reap_session st).active_sessions).map
          (fun kv => kv.2.to_public_dict) := rfl

theorem get_sessions_snd (st : ManagerState) :
    (get_sessions st).2
      = (((st.active_sessions.filter
            (fun kv => kv.2.browser_thread == some false)).map
            (fun kv => kv.1)).foldl reap_session st) := rfl

theorem get_sessions_views (st : ManagerState)
    (hkeys : (st.active_sessions.map (fun kv => kv.1)).Nodup)
    (hthreads : ∀ kv ∈ st.active_sessions, kv.2.browser_thread.isSome) :
    (get_sessions st).1
      = ((st.active_sessions.filter
          (fun kv => kv.2.browser_thread == some true)).map
          (fun kv => kv.2.to_public_dict)) := by
  rw [get_sessions_fst, foldl_reap_active]
  congr 1
  refine List.filter_congr ?_
  intro kv hkv
  by_cases hdead : kv.2.browser_thread = some false
  · have hin : kv.1 ∈ (st.active_sessions.filter
        (fun kv => kv.2.browser_thread == some false)).map (fun kv => kv.1) :=
      List.mem_map.mpr ⟨kv, List.mem_filter.mpr ⟨hkv, by simp [hdead]⟩, rfl⟩
    simp [hin, hdead]
  · have halive : kv.2.browser_thread = some true := by
      have hs := hthreads kv hkv
      cases hbt : kv.2.browser_thread with
      | none => rw [hbt] at hs; simp at hs
      | some b =>
          cases b with
          | false => exact absurd hbt hdead
          | true => rfl
    have hnotin : kv.1 ∉ (st.active_sessions.filter
        (fun kv => kv.2.browser_thread == some false)).map (fun kv => kv.1) := by
      intro hin
      obtain ⟨kv', hkv', hk⟩ := List.mem_map.mp hin
      rw [List.mem_filter] at hkv'
      have hsame := key_determines_entry hkeys hkv'.1 hkv hk
      rw [hsame] at hkv'
      rw [halive] at hkv'
      simpa using hkv'.2
    simp [hnotin, halive]


theorem unit_finish_lookup {st : ManagerState} {sid : String} {sd : SessionData}
    (h : dictLookup st.active_sessions sid = some sd) :
    dictLookup (unit_finish st sid).active_sessions sid
      = some { sd with browser_thread := some false, has_context := false } := by
  simp only [unit_finish, thread_dead, mk_active_sessions, mk_fs,
    dictLookup_update_self, h, Option.map_some']

theorem unit_finish_fs_preserves {st : ManagerState} {sid : String} {x : String}
    (hx : x ∈ st.fs)
    (hne : ∀ sd, dictLookup st.active_sessions sid = some sd →
      sd.temp_profile_dir ≠ some x) :
    x ∈ (unit_finish st sid).fs := by
  simp only [unit_finish, thread_dead, mk_active_sessions, mk_fs,
    dictLookup_update_self]
  cases hl : dictLookup st.active_sessions sid with
  | none => simpa using hx
  | some sd =>
      simp only [Option.map_some']
      exact mem_cleanup_of_ne hx (hne sd hl)

theorem reap_fs_preserves {st : ManagerState} {sid : String} {x : String}
    (hx : x ∈ st.fs)
    (hne : ∀ sd, dictLookup st.active_sessions sid = some sd →
      sd.temp_profile_dir ≠ some x) :
    x ∈ (reap_session st sid).fs := by
  rw [reap_session]
  cases hl : dictLookup st.active_sessions sid with
  | none => exact hx
  | some sd => exact mem_cleanup_of_ne hx (hne sd hl)

theorem stop_session_fs_preserves {st : ManagerState} {sid : String}
    {sd : SessionData} {x : String} (u : Bool)
    (h : dictLookup st.active_sessions sid = some sd)
    (hx : x ∈ st.fs) (hne : sd.temp_profile_dir ≠ some x) :
    x ∈ ((stop_session st sid u).2).fs := by
  simp only [stop_session, h, stop_session_signal, mk_active_sessions, mk_fs,
    dictLookup_update_self, Option.map_some']
  by_cases hb : ((sd.browser_thread == some true) && u) = true
  · simp only [hb, if_true, unit_finish, thread_dead, mk_active_sessions, mk_fs,
      dictLookup_update_self, h, Option.map_some']
    exact mem_cleanup_of_ne (mem_cleanup_of_ne hx hne) hne
  · rw [if_neg hb]
    simp only [mk_active_sessions, mk_fs, dictLookup_update_self, h, Option.map_some']
    exact mem_cleanup_of_ne hx hne

/-! ### The claims -/

/-- C1: for every profile P, if some registered session already has
`profile_name` P then `start` for P raises `SessionConflict`; in particular
starting a session for P twice without an intervening stop fails with
`SessionConflict` on the second call. -/
theorem C1_duplicate_start_conflicts (st st1 : ManagerState) (p q : ProfileDict)
    (sw sh sw1 sh1 : Option Nat) (t t1 : Nat) (sa sa1 : String) (view : PublicDict)
    (hok : start_session st p sw sh t sa = (Except.ok view, st1))
    (hname : q.name = p.name) :
    (∀ st2 : ManagerState,
      (∃ kv ∈ st2.active_sessions, kv.2.profile_name = q.name) →
      ∃ msg, (start_session st2 q sw1 sh1 t1 sa1).1
        = Except.error (SessionError.sessionConflict msg))
    ∧ (∃ kv ∈ st1.active_sessions, kv.2.profile_name = q.name)
    ∧ (∃ msg, (start_session st1 q sw1 sh1 t1 sa1).1
        = Except.error (SessionError.sessionConflict msg)) := by
  have hgen : ∀ st2 : ManagerState,
      (∃ kv ∈ st2.active_sessions, kv.2.profile_name = q.name) →
      ∃ msg, (start_session st2 q sw1 sh1 t1 sa1).1
        = Except.error (SessionError.sessionConflict msg) := by
    intro st2 hex
    have hact : has_active_session st2 q.name = true := by
      rw [has_active_session, List.any_eq_true]
      obtain ⟨kv, hm, he⟩ := hex
      exact ⟨kv, hm, by simp [he]⟩
    refine ⟨"Session already running for " ++ q.name, ?_⟩
    rw [start_session, if_pos (by simp [hact])]
  have hspec := start_session_ok_spec hok
  have hmem : ∃ kv ∈ st1.active_sessions, kv.2.profile_name = q.name := by
    refine ⟨_, dictLookup_mem hspec.2.2.2.1, ?_⟩
    rw [hname]
    rfl
  exact ⟨hgen, hmem, hgen st1 hmem⟩

/-- Witness for C1: the Alpha One profile is started on the empty manager,
then started again — the second call raises `SessionConflict`. -/
theorem C1_duplicate_start_conflicts_witness :
    (∀ st2 : ManagerState,
      (∃ kv ∈ st2.active_sessions, kv.2.profile_name = exProfileA.name) →
      ∃ msg, (start_session st2 exProfileA none none 9 "t9").1
        = Except.error (SessionError.sessionConflict msg))
    ∧ (∃ kv ∈ exSt1.active_sessions, kv.2.profile_name = exProfileA.name)
    ∧ (∃ msg, (start_session exSt1 exProfileA none none 9 "t9").1
        = Except.error (SessionError.sessionConflict msg)) :=
  C1_duplicate_start_conflicts {} exSt1 exProfileA exProfileA none none none none
    5 9 "2024-01-01T00:00:00Z" "t9"
    { session_id := "alpha-one-5", profile_name := "Alpha One",
      status := "running", started_at := "2024-01-01T00:00:00Z" }
    rfl rfl

/-- C10: when `start` raises `SessionConflict` it is atomic: the state it
returns is exactly the input state (no registry entry, no recorded effect),
and the composition with the spawned unit (which never runs) leaves the
state unchanged as well; id generation and the thread spawn sit in the
non-taken branch. -/
theorem C10_start_conflict_atomic (st : ManagerState) (p : ProfileDict)
    (sw sh : Option Nat) (t : Nat) (sa : String) (msg : String)
    (herr : (start_session st p sw sh t sa).1
      = Except.error (SessionError.sessionConflict msg)) :
    (start_session st p sw sh t sa).2 = st
    ∧ (∀ ea : Bool, ∀ uts : Nat,
        (start_and_run_unit ea st p sw sh t sa uts).2 = st) := by
  by_cases hact : has_active_session st p.name = true
  · have heq : start_session st p sw sh t sa
        = (Except.error (SessionError.sessionConflict
            ("Session already running for " ++ p.name)), st) := by
      rw [start_session, if_pos (by simp [hact])]
    constructor
    · rw [heq]
    · intro ea uts
      rw [start_and_run_unit, heq]
  · exfalso
    have hact' : has_active_session st p.name = false := by simpa using hact
    rw [start_session, if_neg (by simp [hact'])] at herr
    simp at herr

/-- Witness for C10: the conflicting second start of Alpha One leaves the
registry exactly as it was. -/
theorem C10_start_conflict_atomic_witness :
    (start_session exSt1 exProfileA none none 9 "t9").2 = exSt1
    ∧ (∀ ea : Bool, ∀ uts : Nat,
        (start_and_run_unit ea exSt1 exProfileA none none 9 "t9" uts).2 = exSt1) :=
  C10_start_conflict_atomic exSt1 exProfileA none none 9 "t9"
    "Session already running for Alpha One" rfl

/-- C2: `stop(session_id)` raises `SessionNotFound` iff the id is not
registered; when registered, the signalling prefix sets the stop flag and
marks the session `stopping`, and — whether or not the unit exits within the
join timeout — the temporary directory is cleaned and the entry removed, so
the id is absent from the registry once `stop` returns. -/
theorem C2_stop_semantics (st : ManagerState) (sid : String) (u : Bool) :
    ((∃ msg, (stop_session st sid u).1
        = Except.error (SessionError.sessionNotFound msg))
      ↔ dictLookup st.active_sessions sid = none)
    ∧ ((stop_session st sid u).1 = Except.ok ()
      ↔ (dictLookup st.active_sessions sid).isSome = true)
    ∧ (∀ sd, dictLookup st.active_sessions sid = some sd →
        dictLookup (stop_session_signal st sid).active_sessions sid
          = some { sd with stop_flag := true, status := "stopping" }
        ∧ dictLookup ((stop_session st sid u).2).active_sessions sid = none
        ∧ (∀ d, sd.temp_profile_dir = some d →
            d ∉ ((stop_session st sid u).2).fs)) := by
  refine ⟨?_, ?_, ?_⟩
  · constructor
    · rintro ⟨msg, hmsg⟩
      cases hl : dictLookup st.active_sessions sid with
      | none => rfl
      | some sd =>
          rw [(stop_session_some_spec hl u).1] at hmsg
          exact Except.noConfusion hmsg
    · intro hl
      exact ⟨_, (stop_session_none_spec hl u).1⟩
  · constructor
    · intro hok
      cases hl : dictLookup st.active_sessions sid with
      | none =>
          rw [(stop_session_none_spec hl u).1] at hok
          exact Except.noConfusion hok
      | some sd => rfl
    · intro hsome
      cases hl : dictLookup st.active_sessions sid with
      | none => rw [hl] at hsome; simp at hsome
      | some sd => exact (stop_session_some_spec hl u).1
  · intro sd hl
    exact ⟨stop_session_signal_lookup hl, (stop_session_some_spec hl u).2.1,
      (stop_session_some_spec hl u).2.2⟩

/-- Witness for C2: stopping the running Alpha One session (and a nonexistent
id via the iff directions) on a concrete state. -/
theorem C2_stop_semantics_witness :
    ((∃ msg, (stop_session exStRun1 "alpha-one-5" true).1
        = Except.error (SessionError.sessionNotFound msg))
      ↔ dictLookup exStRun1.active_sessions "alpha-one-5" = none)
    ∧ ((stop_session exStRun1 "alpha-one-5" true).1 = Except.ok ()
      ↔ (dictLookup exStRun1.active_sessions "alpha-one-5").isSome = true)
    ∧ (∀ sd, dictLookup exStRun1.active_sessions "alpha-one-5" = some sd →
        dictLookup (stop_session_signal exStRun1 "alpha-one-5").active_sessions
            "alpha-one-5"
          = some { sd with stop_flag := true, status := "stopping" }
        ∧ dictLookup ((stop_session exStRun1 "alpha-one-5" true).2).active_sessions
            "alpha-one-5" = none
        ∧ (∀ d, sd.temp_profile_dir = some d →
            d ∉ ((stop_session exStRun1 "alpha-one-5" true).2).fs)) :=
  C2_stop_semantics exStRun1 "alpha-one-5" true

/-- C3: `list()` reaps every registered session whose execution unit has
exited (thread assigned and no longer alive): the entry is removed and its
temporary directory cleaned, without an explicit stop; the returned views are
exactly those of the surviving (alive) sessions. -/
theorem C3_list_reaps_dead (st : ManagerState)
    (hkeys : (st.active_sessions.map (fun kv => kv.1)).Nodup)
    (hthreads : ∀ kv ∈ st.active_sessions, kv.2.browser_thread.isSome) :
    (∀ sid sd, dictLookup st.active_sessions sid = some sd →
        sd.browser_thread = some false →
        dictLookup ((get_sessions st).2).active_sessions sid = none
        ∧ (∀ d, sd.temp_profile_dir = some d → d ∉ ((get_sessions st).2).fs))
    ∧ (get_sessions st).1
        = (st.active_sessions.filter
            (fun kv => kv.2.browser_thread == some true)).map
            (fun kv => kv.2.to_public_dict) := by
  constructor
  · intro sid sd hl hdead
    have hmem := dictLookup_mem hl
    have hT : sid ∈ (st.active_sessions.filter
        (fun kv => kv.2.browser_thread == some false)).map (fun kv => kv.1) :=
      List.mem_map.mpr ⟨(sid, sd), List.mem_filter.mpr ⟨hmem, by simp [hdead]⟩, rfl⟩
    rw [get_sessions_snd]
    exact ⟨foldl_reap_lookup_none hT, fun d hd => foldl_reap_cleanup hT hl hd⟩
  · exact get_sessions_views st hkeys hthreads

/-- Witness for C3: a state with a dead Alpha One unit and a live Beta unit;
`list()` drops the dead one and returns only Beta's view. -/
theorem C3_list_reaps_dead_witness :
    (∀ sid sd, dictLookup exStDead.active_sessions sid = some sd →
        sd.browser_thread = some false →
        dictLookup ((get_sessions exStDead).2).active_sessions sid = none
        ∧ (∀ d, sd.temp_profile_dir = some d →
            d ∉ ((get_sessions exStDead).2).fs))
    ∧ (get_sessions exStDead).1
        = (exStDead.active_sessions.filter
            (fun kv => kv.2.browser_thread == some true)).map
            (fun kv => kv.2.to_public_dict) :=
  C3_list_reaps_dead exStDead (by decide) (by decide)

theorem run_browser_setup_spec (ea : Bool) {st : ManagerState} {sid : String}
    {sd : SessionData} (h : dictLookup st.active_sessions sid = some sd)
    (p : ProfileDict) (sw sh : Option Nat) (uts : Nat) :
    ∃ sd1, dictLookup ((run_browser_setup ea st sid p sw sh uts).1).active_sessions
        sid = some sd1
      ∧ sd1.to_public_dict = sd.to_public_dict
      ∧ sd1.browser_thread = (if ea = true then sd.browser_thread else some false)
      ∧ (((run_browser_setup ea st sid p sw sh uts).1).active_sessions.map
          (fun kv => kv.1)) = (st.active_sessions.map (fun kv => kv.1))
      ∧ (∀ kv ∈ ((run_browser_setup ea st sid p sw sh uts).1).active_sessions,
          kv.1 ≠ sid → kv ∈ st.active_sessions) := by
  cases ea with
  | false =>
      refine ⟨{ sd with browser_thread := some false }, ?_, rfl, by simp, ?_, ?_⟩
      · simp [run_browser_setup, thread_dead, dictLookup_update_self, h]
      · simp only [run_browser_setup, Bool.not_false, if_true, thread_dead,
          mk_active_sessions]
        exact keys_dictUpdate _ _ _
      · simp only [run_browser_setup, Bool.not_false, if_true, thread_dead,
          mk_active_sessions]
        intro kv hm hk
        exact mem_of_mem_dictUpdate_ne hm hk
  | true =>
      by_cases hcond : (p.storage_enabled && p.persistent_dir != "") = true
      · refine ⟨{ sd with has_context := true }, ?_, rfl, by simp, ?_, ?_⟩
        · simp [run_browser_setup, h, build_opts, hcond, mk_active_sessions,
            dictLookup_update_self]
        · simp only [run_browser_setup, Bool.not_true,
            if_neg (by simp : ¬ false = true), h, build_opts, hcond, if_true,
            mk_active_sessions]
          exact keys_dictUpdate _ _ _
        · simp only [run_browser_setup, Bool.not_true,
            if_neg (by simp : ¬ false = true), h, build_opts, hcond, if_true,
            mk_active_sessions]
          intro kv hm hk
          exact mem_of_mem_dictUpdate_ne hm hk
      · refine ⟨{ sd with
            temp_profile_dir := some (temp_profile_dir_name uts)
            has_context := true }, ?_, rfl, by simp, ?_, ?_⟩
        · simp [run_browser_setup, h, build_opts, hcond, mk_active_sessions,
            dictLookup_update_self]
        · simp only [run_browser_setup, Bool.not_true,
            if_neg (by simp : ¬ false = true), h, build_opts, hcond, if_false,
            mk_active_sessions]
          rw [keys_dictUpdate, keys_dictUpdate]
        · simp only [run_browser_setup, Bool.not_true,
            if_neg (by simp : ¬ false = true), h, build_opts, hcond, if_false,
            mk_active_sessions]
          intro kv hm hk
          exact mem_of_mem_dictUpdate_ne (mem_of_mem_dictUpdate_ne hm hk) hk
/-- C5 counterexample: with the engine unavailable, `start` does not raise
and returns a view with status running, yet the unit dies during the
readiness sleep and the immediately following `list()` reaps the session —
its id is absent from the result, refuting the unconditional claim. -/
theorem C5_counterexample :
    exEngineless.1
      = Except.ok ((started_session_record exProfileB 21 "t4").to_public_dict)
    ∧ ((started_session_record exProfileB 21 "t4").to_public_dict).status
        = "running"
    ∧ ((started_session_record exProfileB 21 "t4").to_public_dict).session_id
        ∉ ((get_sessions exEngineless.2).1).map (fun v => v.session_id) :=
  ⟨rfl, rfl, by decide⟩

/-- C5 amended: a non-raising `start` returns a view with status running, and
the id is present in an immediately following `list()` exactly when the
session's execution unit is still alive at that call; if the unit has already
exited (e.g. engine load failure during the readiness sleep), the id is
absent, the session having been reaped.  Stated over the caller-observed
composition of `start` with the spawned unit, under the registry invariants
(unique keys, threads assigned, records carrying their own key as id). -/
theorem C5_amended_start_listed_iff_alive (ea : Bool) (st st1 : ManagerState)
    (p : ProfileDict) (sw sh : Option Nat) (t : Nat) (sa : String) (uts : Nat)
    (view : PublicDict)
    (hkeys : (st.active_sessions.map (fun kv => kv.1)).Nodup)
    (hthreads : ∀ kv ∈ st.active_sessions, kv.2.browser_thread.isSome)
    (hids : ∀ kv ∈ st.active_sessions, kv.2.session_id = kv.1)
    (hok : start_and_run_unit ea st p sw sh t sa uts = (Except.ok view, st1)) :
    view.status = "running"
    ∧ (∀ sd, dictLookup st1.active_sessions view.session_id = some sd →
        sd.browser_thread = some true →
        view ∈ (get_sessions st1).1
        ∧ view.session_id ∈ ((get_sessions st1).1).map (fun v => v.session_id))
    ∧ (∀ sd, dictLookup st1.active_sessions view.session_id = some sd →
        sd.browser_thread = some false →
        view.session_id ∉ ((get_sessions st1).1).map (fun v => v.session_id)) := by
  by_cases hact : has_active_session st p.name = true
  · exfalso
    have heq : start_session st p sw sh t sa
        = (Except.error (SessionError.sessionConflict
            ("Session already running for " ++ p.name)), st) := by
      rw [start_session, if_pos (by simp [hact])]
    rw [start_and_run_unit, heq] at hok
    simp at hok
  · have hact' : has_active_session st p.name = false := by simpa using hact
    have h1 : (start_session st p sw sh t sa).1
        = Except.ok ((started_session_record p t sa).to_public_dict) := by
      rw [start_session, if_neg (by simp [hact'])]
      rfl
    set S0 := (start_session st p sw sh t sa).2 with hS0
    have hok1 : start_session st p sw sh t sa
        = (Except.ok ((started_session_record p t sa).to_public_dict), S0) :=
      Prod.ext_iff.mpr ⟨h1, rfl⟩
    obtain ⟨_, _, _, hlook0, _, _, hnd0, htrans0⟩ := start_session_ok_spec hok1
    simp only [start_and_run_unit, hok1] at hok
    simp only [Prod.mk.injEq, Except.ok.injEq] at hok
    obtain ⟨hview, hst1⟩ := hok
    have hvid : view.session_id = generate_session_id p.name t := by
      rw [← hview]
      rfl
    have hst1' : (run_browser_setup ea S0
        (generate_session_id p.name t) p sw sh uts).1 = st1 := hst1
    obtain ⟨sd1, hl1, hpub1, hthr1, hkeysEq, htrans1⟩ :=
      run_browser_setup_spec ea hlook0 p sw sh uts
    rw [hst1'] at hl1 hkeysEq htrans1
    have hkeys1 : (st1.active_sessions.map (fun kv => kv.1)).Nodup := by
      rw [hkeysEq]
      exact hnd0 hkeys
    have hmem1 : (generate_session_id p.name t, sd1) ∈ st1.active_sessions :=
      dictLookup_mem hl1
    have hsd1pub : sd1.to_public_dict = view := hpub1.trans hview
    have hthreads1 : ∀ kv ∈ st1.active_sessions, kv.2.browser_thread.isSome := by
      intro kv hm
      by_cases hk : kv.1 = generate_session_id p.name t
      · have hkv := key_determines_entry hkeys1 hm hmem1 hk
        rw [hkv]
        show sd1.browser_thread.isSome = true
        rw [hthr1]
        cases ea <;> simp [started_session_record]
      · exact hthreads kv (htrans0 kv (htrans1 kv hm hk) hk)
    have hids1 : ∀ kv ∈ st1.active_sessions, kv.2.session_id = kv.1 := by
      intro kv hm
      by_cases hk : kv.1 = generate_session_id p.name t
      · have hkv := key_determines_entry hkeys1 hm hmem1 hk
        rw [hkv]
        show sd1.session_id = generate_session_id p.name t
        have hpid := congrArg PublicDict.session_id hsd1pub
        rw [hvid] at hpid
        exact hpid
      · exact hids kv (htrans0 kv (htrans1 kv hm hk) hk)
    have hviews := get_sessions_views st1 hkeys1 hthreads1
    refine ⟨by rw [← hview]; rfl, ?_, ?_⟩
    · intro sd hl halive
      rw [hvid] at hl
      have hsd1eq : sd1 = sd := Option.some.inj (hl1.symm.trans hl)
      have halive1 : sd1.browser_thread = some true := by
        rw [hsd1eq]
        exact halive
      have hv2 : view ∈ (get_sessions st1).1 := by
        rw [hviews]
        exact List.mem_map.mpr ⟨(generate_session_id p.name t, sd1),
          List.mem_filter.mpr ⟨hmem1, by simp [halive1]⟩, hsd1pub⟩
      exact ⟨hv2, List.mem_map.mpr ⟨view, hv2, rfl⟩⟩
    · intro sd hl hdead
      rw [hvid] at hl
      have hsd1eq : sd1 = sd := Option.some.inj (hl1.symm.trans hl)
      have hdead1 : sd1.browser_thread = some false := by
        rw [hsd1eq]
        exact hdead
      rw [hvid]
      intro hin
      rw [get_sessions_fst, foldl_reap_active, List.mem_map] at hin
      obtain ⟨v', hv', hvid'⟩ := hin
      rw [List.mem_map] at hv'
      obtain ⟨kv, hkvmem, hkv⟩ := hv'
      rw [List.mem_filter] at hkvmem
      obtain ⟨hkvmem1, hkvsurv⟩ := hkvmem
      have hkvid : kv.1 = generate_session_id p.name t := by
        rw [← hids1 kv hkvmem1, ← hvid', ← hkv]
        rfl
      have hT : generate_session_id p.name t
          ∈ (st1.active_sessions.filter
              (fun kv => kv.2.browser_thread == some false)).map
              (fun kv => kv.1) :=
        List.mem_map.mpr ⟨(generate_session_id p.name t, sd1),
          List.mem_filter.mpr ⟨hmem1, by simp [hdead1]⟩, rfl⟩
      rw [hkvid] at hkvsurv
      simp [hT] at hkvsurv

/-- Witness for C5 amended: the Alpha One session started with the engine
available on the empty manager; its unit is alive, and its view and id show
up in the immediately following list. -/
theorem C5_amended_start_listed_iff_alive_witness :
    ((started_session_record exProfileA 5
        "2024-01-01T00:00:00Z").to_public_dict).status = "running"
    ∧ (∀ sd, dictLookup exStRun1.active_sessions
          ((started_session_record exProfileA 5
            "2024-01-01T00:00:00Z").to_public_dict).session_id = some sd →
        sd.browser_thread = some true →
        (started_session_record exProfileA 5
            "2024-01-01T00:00:00Z").to_public_dict ∈ (get_sessions exStRun1).1
        ∧ ((started_session_record exProfileA 5
            "2024-01-01T00:00:00Z").to_public_dict).session_id
            ∈ ((get_sessions exStRun1).1).map (fun v => v.session_id))
    ∧ (∀ sd, dictLookup exStRun1.active_sessions
          ((started_session_record exProfileA 5
            "2024-01-01T00:00:00Z").to_public_dict).session_id = some sd →
        sd.browser_thread = some false →
        ((started_session_record exProfileA 5
            "2024-01-01T00:00:00Z").to_public_dict).session_id
            ∉ ((get_sessions exStRun1).1).map (fun v => v.session_id)) :=
  C5_amended_start_listed_iff_alive true {} exStRun1 exProfileA none none 5
    "2024-01-01T00:00:00Z" 6
    ((started_session_record exProfileA 5 "2024-01-01T00:00:00Z").to_public_dict)
    (by decide) (by decide) (by decide) rfl

/-- C4 counterexample: with the engine unavailable, `start` does not signal
`EngineUnavailable` — it returns a `PublicSession` marked running. -/
theorem C4_counterexample :
    exEngineless.1 = Except.ok
      { session_id := "beta-21", profile_name := "Beta",
        status := "running", started_at := "t4" }
    ∧ exEngineless.1 ≠ Except.error SessionError.engineUnavailable := by
  refine ⟨rfl, ?_⟩
  intro hcontra
  have hok : exEngineless.1 = Except.ok
      ({ session_id := "beta-21", profile_name := "Beta",
         status := "running", started_at := "t4" } : PublicDict) := rfl
  rw [hok] at hcontra
  exact Except.noConfusion hcontra

/-- C4 amended: an engine-load failure is handled inside the unit (logged,
unit exits); `start` still returns a `PublicSession` with status running, the
session is registered with a dead thread, and the next `list()` removes it. -/
theorem C4_amended_engine_unavailable (st : ManagerState) (p : ProfileDict)
    (sw sh : Option Nat) (t : Nat) (sa : String) (uts : Nat)
    (hact : has_active_session st p.name = false) :
    (start_and_run_unit false st p sw sh t sa uts).1
        = Except.ok ((started_session_record p t sa).to_public_dict)
    ∧ ((started_session_record p t sa).to_public_dict).status = "running"
    ∧ dictLookup ((start_and_run_unit false st p sw sh t sa uts).2).active_sessions
        (generate_session_id p.name t)
        = some { started_session_record p t sa with browser_thread := some false }
    ∧ dictLookup ((get_sessions
          ((start_and_run_unit false st p sw sh t sa uts).2)).2).active_sessions
        (generate_session_id p.name t) = none := by
  have hact' : ¬ has_active_session st p.name = true := by simp [hact]
  have h3 : dictLookup ((start_and_run_unit false st p sw sh t sa uts).2).active_sessions
      (generate_session_id p.name t)
      = some { started_session_record p t sa with browser_thread := some false } := by
    simp only [start_and_run_unit, start_session, if_neg hact', run_browser_setup,
      Bool.not_false, if_true, thread_dead, mk_active_sessions, mk_fs,
      SessionData.to_public_dict, started_session_record,
      dictLookup_update_self, dictLookup_insert_self, Option.map_some']
  refine ⟨?_, rfl, h3, ?_⟩
  · simp only [start_and_run_unit, start_session, if_neg hact',
      SessionData.to_public_dict, started_session_record]
  · have hmem := dictLookup_mem h3
    have hT : generate_session_id p.name t
        ∈ (((start_and_run_unit false st p sw sh t sa uts).2).active_sessions.filter
            (fun kv => kv.2.browser_thread == some false)).map (fun kv => kv.1) :=
      List.mem_map.mpr ⟨_, List.mem_filter.mpr ⟨hmem, by rfl⟩, rfl⟩
    rw [get_sessions_snd]
    exact foldl_reap_lookup_none hT

/-- Witness for C4 amended at the concrete engine-less run. -/
theorem C4_amended_engine_unavailable_witness :
    (start_and_run_unit false {} exProfileB none none 21 "t4" 22).1
        = Except.ok ((started_session_record exProfileB 21 "t4").to_public_dict)
    ∧ ((started_session_record exProfileB 21 "t4").to_public_dict).status
        = "running"
    ∧ dictLookup ((start_and_run_unit false {} exProfileB none none 21
          "t4" 22).2).active_sessions
        (generate_session_id exProfileB.name 21)
        = some { started_session_record exProfileB 21 "t4" with
                 browser_thread := some false }
    ∧ dictLookup ((get_sessions ((start_and_run_unit false {} exProfileB none none
          21 "t4" 22).2)).2).active_sessions
        (generate_session_id exProfileB.name 21) = none :=
  C4_amended_engine_unavailable {} exProfileB none none 21 "t4" 22 (by decide)

/-- C9 counterexample: the distinct profile names "A" and "a" sanitise to the
same safe name; started in the same millisecond they receive the same id
"a-7", both starts succeed (no conflict), and the second registration
overwrites the first, leaving a single registry entry. -/
theorem C9_counterexample :
    exProfileUpper.name ≠ exProfileLower.name
    ∧ generate_session_id exProfileUpper.name 7
        = generate_session_id exProfileLower.name 7
    ∧ exC9r1.1 = Except.ok
        { session_id := "a-7", profile_name := "A",
          status := "running", started_at := "t0" }
    ∧ exC9r2.1 = Except.ok
        { session_id := "a-7", profile_name := "a",
          status := "running", started_at := "t1" }
    ∧ has_active_session exC9r2.2 "A" = false
    ∧ exC9r2.2.active_sessions.length = 1 :=
  ⟨by decide, by decide, rfl, rfl, by decide, by decide⟩

/-- C9 amended: ids are deterministic in the sanitised profile name and the
timestamp; at a fixed timestamp two profiles receive the same id iff their
sanitised names coincide — not iff the names themselves do. -/
theorem C9_amended_id_collision (n1 n2 : String) (t : Nat) :
    generate_session_id n1 t = generate_session_id n2 t
      ↔ py_sanitize_name n1 = py_sanitize_name n2 := by
  constructor
  · intro h
    simp only [generate_session_id] at h
    have hd := congrArg String.data h
    rw [String.data_append, String.data_append,
      String.data_append, String.data_append] at hd
    exact String.ext (List.append_cancel_right (List.append_cancel_right hd))
  · intro h
    simp only [generate_session_id, h]

/-- Witness for C9 amended at the colliding pair. -/
theorem C9_amended_id_collision_witness :
    generate_session_id "A" 7 = generate_session_id "a" 7
      ↔ py_sanitize_name "A" = py_sanitize_name "a" :=
  C9_amended_id_collision "A" "a" 7

theorem build_opts_window (p : ProfileDict) (sw sh : Option Nat) (ts : Nat) :
    (build_opts p sw sh ts).1.window
      = ((resolve_viewport p sw sh).1 + 2, (resolve_viewport p sw sh).2 + 88) := by
  by_cases h1 : (p.storage_enabled && p.persistent_dir != "") = true <;>
    by_cases h2 : (p.proxy.enabled && p.proxy.host != ""
        && p.proxy.port != 0) = true <;>
      by_cases h3 : p.use_geoip = true <;>
        simp [build_opts, h1, h2, h3]

/-- C6 counterexample: the Full profile requests fullscreen and both screen
dimensions are supplied to start (as 0, which is Python-falsy), yet the unit
uses the profile's stored 1000 × 900 viewport rather than the supplied
dimensions — "supplied" alone does not force their use. -/
theorem C6_counterexample :
    exProfileFull.fullscreen = true
    ∧ (some 0 : Option Nat).isSome = true
    ∧ (run_browser_setup true exFullStart.2 "full-31" exProfileFull
        (some 0) (some 0) 32).2
      = some
          { opts := { headless := false, window := (1002, 988),
                      persistent_context := true,
                      user_data_dir := "/tmp/tmp_camoufox_profile_32",
                      proxy := none, geoip := false },
            page_viewport := (1000, 900) }
    ∧ ((1000, 900) : Nat × Nat)
        ≠ ((some 0 : Option Nat).getD 0, (some 0 : Option Nat).getD 0) :=
  ⟨rfl, rfl, rfl, by decide⟩

/-- C6 amended: the effective viewport equals the supplied screen dimensions
exactly when the profile requests fullscreen and both dimensions are supplied
and nonzero (Python truthiness); otherwise it is the profile's configured
viewport (defaults 1280 × 800), and the resolved size is what reaches the
engine — the initial page gets exactly it, the window gets it plus the
(+2, +88) chrome padding. -/
theorem C6_amended_viewport (st : ManagerState) (sid : String) (p : ProfileDict)
    (sw sh : Option Nat) (ts : Nat) (launch : EngineLaunch)
    (hl : (run_browser_setup true st sid p sw sh ts).2 = some launch) :
    ((p.fullscreen = true ∧ pyTruthyNat sw = true ∧ pyTruthyNat sh = true) →
        launch.page_viewport = (sw.getD 0, sh.getD 0))
    ∧ (¬ (p.fullscreen = true ∧ pyTruthyNat sw = true ∧ pyTruthyNat sh = true) →
        launch.page_viewport
          = (p.viewport_width.getD 1280, p.viewport_height.getD 800))
    ∧ launch.opts.window
        = (launch.page_viewport.1 + 2, launch.page_viewport.2 + 88) := by
  cases hlook : dictLookup st.active_sessions sid with
  | none =>
      exfalso
      simp [run_browser_setup, hlook] at hl
  | some sd =>
      simp only [run_browser_setup, Bool.not_true, if_neg (by simp : ¬ false = true),
        hlook, Option.some.injEq] at hl
      rw [← hl]
      refine ⟨?_, ?_, ?_⟩
      · rintro ⟨hf, hsw, hsh⟩
        simp [resolve_viewport, hf, hsw, hsh]
      · intro hn
        have hcond : ¬ ((p.fullscreen && pyTruthyNat sw && pyTruthyNat sh) = true) := by
          simpa [Bool.and_eq_true, and_assoc] using hn
        simp [resolve_viewport, hcond]
      · exact build_opts_window p sw sh ts

/-- Witness for C6 amended: the Full profile launched with proper 1920 × 1080
screen dimensions. -/
theorem C6_amended_viewport_witness :
    ((exProfileFull.fullscreen = true ∧ pyTruthyNat (some 1920) = true
        ∧ pyTruthyNat (some 1080) = true) →
      ({ opts := { headless := false, window := (1922, 1168),
                   persistent_context := true,
                   user_data_dir := "/tmp/tmp_camoufox_profile_33",
                   proxy := none, geoip := false },
         page_viewport := (1920, 1080) } : EngineLaunch).page_viewport
        = ((some 1920 : Option Nat).getD 0, (some 1080 : Option Nat).getD 0))
    ∧ (¬ (exProfileFull.fullscreen = true ∧ pyTruthyNat (some 1920) = true
        ∧ pyTruthyNat (some 1080) = true) →
      ({ opts := { headless := false, window := (1922, 1168),
                   persistent_context := true,
                   user_data_dir := "/tmp/tmp_camoufox_profile_33",
                   proxy := none, geoip := false },
         page_viewport := (1920, 1080) } : EngineLaunch).page_viewport
        = (exProfileFull.viewport_width.getD 1280,
           exProfileFull.viewport_height.getD 800))
    ∧ ({ opts := { headless := false, window := (1922, 1168),
                   persistent_context := true,
                   user_data_dir := "/tmp/tmp_camoufox_profile_33",
                   proxy := none, geoip := false },
         page_viewport := (1920, 1080) } : EngineLaunch).opts.window
        = (({ opts := { headless := false, window := (1922, 1168),
                        persistent_context := true,
                        user_data_dir := "/tmp/tmp_camoufox_profile_33",
                        proxy := none, geoip := false },
              page_viewport := (1920, 1080) } : EngineLaunch).page_viewport.1 + 2,
           ({ opts := { headless := false, window := (1922, 1168),
                        persistent_context := true,
                        user_data_dir := "/tmp/tmp_camoufox_profile_33",
                        proxy := none, geoip := false },
              page_viewport := (1920, 1080) } : EngineLaunch).page_viewport.2 + 88) :=
  C6_amended_viewport exFullStart.2 "full-31" exProfileFull
    (some 1920) (some 1080) 33
    { opts := { headless := false, window := (1922, 1168),
                persistent_context := true,
                user_data_dir := "/tmp/tmp_camoufox_profile_33",
                proxy := none, geoip := false },
      page_viewport := (1920, 1080) }
    rfl

/-- C7: a proxy option reaches the engine iff the profile's proxy config is
enabled and host and port are present (nonempty / nonzero — Python
truthiness); when present its endpoint is exactly `protocol://host:port`
(protocol defaulting to socks5), credentials are attached only when
non-empty, and GeoIP is requested only when a proxy is passed and the
profile asks for it. -/
theorem C7_proxy_resolution (p : ProfileDict) (sw sh : Option Nat) (ts : Nat) :
    ((build_opts p sw sh ts).1.proxy ≠ none
        ↔ (p.proxy.enabled = true ∧ p.proxy.host ≠ "" ∧ p.proxy.port ≠ 0))
    ∧ (∀ pd, (build_opts p sw sh ts).1.proxy = some pd →
        pd.server = (p.proxy.protocol.getD "socks5") ++ "://" ++ p.proxy.host
            ++ ":" ++ toString p.proxy.port
        ∧ pd.username
            = (if p.proxy.username != "" then some p.proxy.username else none)
        ∧ pd.password
            = (if p.proxy.password != "" then some p.proxy.password else none))
    ∧ ((build_opts p sw sh ts).1.geoip = true
        ↔ ((build_opts p sw sh ts).1.proxy ≠ none ∧ p.use_geoip = true)) := by
  have hbool : (build_opts p sw sh ts).1.proxy ≠ none
      ↔ (p.proxy.enabled && p.proxy.host != "" && p.proxy.port != 0) = true := by
    by_cases h1 : (p.storage_enabled && p.persistent_dir != "") = true <;>
      by_cases h2 : (p.proxy.enabled && p.proxy.host != ""
          && p.proxy.port != 0) = true <;>
        by_cases h3 : p.use_geoip = true <;>
          simp [build_opts, h1, h2, h3]
  refine ⟨?_, ?_, ?_⟩
  · exact hbool.trans (by simp [Bool.and_eq_true, bne_iff_ne, and_assoc])
  · intro pd hpd
    by_cases h2 : (p.proxy.enabled && p.proxy.host != ""
        && p.proxy.port != 0) = true
    · by_cases h1 : (p.storage_enabled && p.persistent_dir != "") = true <;>
        by_cases h3 : p.use_geoip = true
      all_goals
        simp [build_opts, h1, h2, h3] at hpd
        rw [← hpd]
        refine ⟨rfl, ?_, ?_⟩
        · by_cases hu : p.proxy.username = "" <;> simp [hu]
        · by_cases hq : p.proxy.password = "" <;> simp [hq]
    · exfalso
      have : (build_opts p sw sh ts).1.proxy ≠ none := by
        rw [hpd]; simp
      rw [hbool] at this
      exact h2 this
  · by_cases h1 : (p.storage_enabled && p.persistent_dir != "") = true <;>
      by_cases h2 : (p.proxy.enabled && p.proxy.host != ""
          && p.proxy.port != 0) = true <;>
        by_cases h3 : p.use_geoip = true <;>
          simp [build_opts, h1, h2, h3]

/-- Witness for C7 at the concrete proxy profile (enabled, host and port set,
username "u", empty password, geoip requested). -/
theorem C7_proxy_resolution_witness :
    ((build_opts exProfileProxy none none 99).1.proxy ≠ none
        ↔ (exProfileProxy.proxy.enabled = true ∧ exProfileProxy.proxy.host ≠ ""
            ∧ exProfileProxy.proxy.port ≠ 0))
    ∧ (∀ pd, (build_opts exProfileProxy none none 99).1.proxy = some pd →
        pd.server = (exProfileProxy.proxy.protocol.getD "socks5") ++ "://"
            ++ exProfileProxy.proxy.host ++ ":"
            ++ toString exProfileProxy.proxy.port
        ∧ pd.username = (if exProfileProxy.proxy.username != "" then
            some exProfileProxy.proxy.username else none)
        ∧ pd.password = (if exProfileProxy.proxy.password != "" then
            some exProfileProxy.proxy.password else none))
    ∧ ((build_opts exProfileProxy none none 99).1.geoip = true
        ↔ ((build_opts exProfileProxy none none 99).1.proxy ≠ none
            ∧ exProfileProxy.use_geoip = true)) :=
  C7_proxy_resolution exProfileProxy none none 99

/-- C8: with persistent storage enabled and a directory named, the resolved
options use that directory directly as `user_data_dir` and record no
ephemeral directory; after start the session's `temp_profile_dir` is `none`
and the directory exists; and each teardown path applied to this session —
`stop` under either join outcome, the unit's own `finally`, and the
list-style reap of the dead unit — leaves the persistent directory on the
filesystem. -/
theorem C8_persistent_dir_preserved (st : ManagerState) (p : ProfileDict)
    (sw sh : Option Nat) (t : Nat) (sa : String) (uts : Nat)
    (hstorage : p.storage_enabled = true) (hdir : p.persistent_dir ≠ "")
    (hact : has_active_session st p.name = false) :
    (build_opts p sw sh uts).1.user_data_dir = os_path_abspath p.persistent_dir
    ∧ (build_opts p sw sh uts).2.1 = none
    ∧ (∀ sd, dictLookup
          ((start_and_run_unit true st p sw sh t sa uts).2).active_sessions
          (generate_session_id p.name t) = some sd → sd.temp_profile_dir = none)
    ∧ p.persistent_dir ∈ ((start_and_run_unit true st p sw sh t sa uts).2).fs
    ∧ (∀ u, p.persistent_dir ∈
        ((stop_session ((start_and_run_unit true st p sw sh t sa uts).2)
            (generate_session_id p.name t) u).2).fs)
    ∧ p.persistent_dir ∈
        (unit_finish ((start_and_run_unit true st p sw sh t sa uts).2)
          (generate_session_id p.name t)).fs
    ∧ p.persistent_dir ∈
        (reap_session
          (unit_finish ((start_and_run_unit true st p sw sh t sa uts).2)
            (generate_session_id p.name t))
          (generate_session_id p.name t)).fs := by
  have hact' : ¬ has_active_session st p.name = true := by simp [hact]
  have hcond : (p.storage_enabled && p.persistent_dir != "") = true := by
    simp [hstorage, bne_iff_ne, hdir]
  have hS : dictLookup
      ((start_and_run_unit true st p sw sh t sa uts).2).active_sessions
      (generate_session_id p.name t)
      = some { started_session_record p t sa with has_context := true } := by
    simp only [start_and_run_unit, start_session, if_neg hact', run_browser_setup,
      Bool.not_true, if_neg (by simp : ¬ false = true),
      SessionData.to_public_dict, started_session_record, build_opts, hcond,
      if_true, mk_active_sessions, mk_fs, dictLookup_update_self,
      dictLookup_insert_self, Option.map_some']
  have hfs : ((start_and_run_unit true st p sw sh t sa uts).2).fs
      = fsMakedirs st.fs p.persistent_dir := by
    simp only [start_and_run_unit, start_session, if_neg hact', run_browser_setup,
      Bool.not_true, if_neg (by simp : ¬ false = true),
      SessionData.to_public_dict, started_session_record, build_opts, hcond,
      if_true, mk_active_sessions, mk_fs, dictLookup_update_self,
      dictLookup_insert_self, Option.map_some']
  have hmem : p.persistent_dir ∈ ((start_and_run_unit true st p sw sh t sa uts).2).fs := by
    rw [hfs]
    exact mem_fsMakedirs_self st.fs p.persistent_dir
  have htempnone : ∀ sd, dictLookup
      ((start_and_run_unit true st p sw sh t sa uts).2).active_sessions
      (generate_session_id p.name t) = some sd → sd.temp_profile_dir = none := by
    intro sd hsd
    rw [hS] at hsd
    simp only [Option.some.injEq] at hsd
    rw [← hsd]
    simp [started_session_record]
  have hunit : p.persistent_dir ∈
      (unit_finish ((start_and_run_unit true st p sw sh t sa uts).2)
        (generate_session_id p.name t)).fs := by
    refine unit_finish_fs_preserves hmem ?_
    intro sd hsd
    rw [htempnone sd hsd]
    simp
  refine ⟨?_, ?_, htempnone, hmem, ?_, hunit, ?_⟩
  · by_cases h2 : (p.proxy.enabled && p.proxy.host != ""
        && p.proxy.port != 0) = true <;>
      by_cases h3 : p.use_geoip = true <;>
        simp [build_opts, hcond, h2, h3]
  · by_cases h2 : (p.proxy.enabled && p.proxy.host != ""
        && p.proxy.port != 0) = true <;>
      by_cases h3 : p.use_geoip = true <;>
        simp [build_opts, hcond, h2, h3]
  · intro u
    refine stop_session_fs_preserves u hS hmem ?_
    simp [started_session_record]
  · refine reap_fs_preserves hunit ?_
    intro sd hsd
    rw [unit_finish_lookup hS] at hsd
    simp only [Option.some.injEq] at hsd
    rw [← hsd]
    simp [started_session_record]

/-- Witness for C8: the Keep profile with persistent directory `/data/keep`
started on the empty manager. -/
theorem C8_persistent_dir_preserved_witness :
    (build_opts exProfilePersist none none 12).1.user_data_dir
        = os_path_abspath exProfilePersist.persistent_dir
    ∧ (build_opts exProfilePersist none none 12).2.1 = none
    ∧ (∀ sd, dictLookup
          ((start_and_run_unit true {} exProfilePersist none none 11
              "t3" 12).2).active_sessions
          (generate_session_id exProfilePersist.name 11) = some sd →
          sd.temp_profile_dir = none)
    ∧ exProfilePersist.persistent_dir
        ∈ ((start_and_run_unit true {} exProfilePersist none none 11 "t3" 12).2).fs
    ∧ (∀ u, exProfilePersist.persistent_dir ∈
        ((stop_session ((start_and_run_unit true {} exProfilePersist none none 11
              "t3" 12).2)
            (generate_session_id exProfilePersist.name 11) u).2).fs)
    ∧ exProfilePersist.persistent_dir ∈
        (unit_finish ((start_and_run_unit true {} exProfilePersist none none 11
            "t3" 12).2)
          (generate_session_id exProfilePersist.name 11)).fs
    ∧ exProfilePersist.persistent_dir ∈
        (reap_session
          (unit_finish ((start_and_run_unit true {} exProfilePersist none none 11
              "t3" 12).2)
            (generate_session_id exProfilePersist.name 11))
          (generate_session_id exProfilePersist.name 11)).fs :=
  C8_persistent_dir_preserved {} exProfilePersist none none 11 "t3" 12
    rfl (by decide) (by decide)

end CamoufoxPM
